import Mathlib

/-
Verification of the demographics aggregation/filter library (build_data.py)
against its natural-language specification.

Embedding choices:
  * Python dictionaries with string keys and numeric values are modelled as
    association lists `List (String × ℚ)`; `dictGet` models `d[k]`-style
    lookup returning `Option`, `dictGetD` models `d.get(k, default)`, and
    `dictContains` models `k in d`.
  * Python numbers (ints and floats) are modelled exactly as rationals `ℚ`.
  * Direct indexing `d[k]` can raise `KeyError` in the source, so every
    function whose body performs a direct index returns `Option ℚ`:
    `none` models the raised exception.
  * The record type `CountyDemographics` comes from the external `data`
    module (not part of this library); it is modelled from the spec's data
    model, with field names matching the attribute accesses that
    build_data.py performs (`education`, `ethnicity`, `income`,
    `demographics` for the population mapping, `state`).
-/

namespace BuildData

abbrev Dict := List (String × ℚ)

/-- Model of Python dictionary lookup `d[k]` as an optional value. -/
def dictGet : Dict → String → Option ℚ
  | [], _ => none
  | (k2, v) :: rest, k => if k2 = k then some v else dictGet rest k

/-- Model of Python `d.get(k, default)`. -/
def dictGetD (d : Dict) (k : String) (default : ℚ) : ℚ :=
  (dictGet d k).getD default

/-- Model of Python `k in d`. -/
def dictContains (d : Dict) (k : String) : Bool :=
  (dictGet d k).isSome

/-- Modelled from the spec: the `CountyDemographics` record produced by the
external `data` module (missing from the analytics library itself).  Fields
follow the spec's data model; the population mapping is stored in the field
`demographics`, matching the attribute name build_data.py reads. -/
structure CountyDemographics where
  age : Dict
  county : String
  education : Dict
  ethnicity : Dict
  income : Dict
  demographics : Dict
  state : String
deriving DecidableEq

/-- The population key `"2014 Population"` used as denominator everywhere. -/
def pop2014 : String := "2014 Population"

/-- The fixed poverty key `"Persons Below Poverty Level"`. -/
def povertyKey : String := "Persons Below Poverty Level"

/-- The ethnicity key `"Hispanic or Latino"`. -/
def hispanicKey : String := "Hispanic or Latino"

/-- The education key `"Bachelor's Degree or Higher"`. -/
def bachelorsKey : String := "Bachelor's Degree or Higher"

/-- Accumulation of per-county optional values, modelling a Python
`for`-loop that adds a (possibly `KeyError`-raising) term per county. -/
def sumOptionWith (f : CountyDemographics → Option ℚ) :
    List CountyDemographics → Option ℚ
  | [] => some 0
  | c :: cs =>
      (f c).bind (fun v => (sumOptionWith f cs).map (fun rest => v + rest))

/-- `population_total` from build_data.py: sums
`county.demographics['2014 Population']` (direct index, may raise). -/
def population_total (counties : List CountyDemographics) : Option ℚ :=
  sumOptionWith (fun county => dictGet county.demographics pop2014) counties

/-- `filter_by_state` from build_data.py. -/
def filter_by_state (counties : List CountyDemographics) (state_abbr : String) :
    List CountyDemographics :=
  counties.filter (fun county => county.state == state_abbr)

/-- The per-county term of the three sub-population loops: if the relevant
mapping (selected by `get`) contains the key, contribute
`(pct / 100) * county.demographics['2014 Population']` (direct index on the
population mapping, may raise), else contribute 0. -/
def subTerm (get : CountyDemographics → Dict) (k : String)
    (county : CountyDemographics) : Option ℚ :=
  match dictGet (get county) k with
  | some pct =>
      (dictGet county.demographics pop2014).map (fun pop => pct / 100 * pop)
  | none => some 0

/-- `population_by_education` from build_data.py. -/
def population_by_education (counties : List CountyDemographics)
    (education_key : String) : Option ℚ :=
  sumOptionWith (subTerm (fun c => c.education) education_key) counties

/-- `population_by_ethnicity` from build_data.py. -/
def population_by_ethnicity (counties : List CountyDemographics)
    (ethnicity_key : String) : Option ℚ :=
  sumOptionWith (subTerm (fun c => c.ethnicity) ethnicity_key) counties

/-- `population_below_poverty_level` from build_data.py. -/
def population_below_poverty_level (counties : List CountyDemographics) :
    Option ℚ :=
  sumOptionWith (subTerm (fun c => c.income) povertyKey) counties

/-- `percent_by_education` from build_data.py: computes the total and the
education sub-population, then returns `(sub / total) * 100` if
`total > 0`, else `0.0`. -/
def percent_by_education (counties : List CountyDemographics)
    (education_key : String) : Option ℚ :=
  (population_total counties).bind (fun total =>
    (population_by_education counties education_key).map (fun sub =>
      if total > 0 then sub / total * 100 else 0))

/-- `percent_by_ethnicity` from build_data.py. -/
def percent_by_ethnicity (counties : List CountyDemographics)
    (ethnicity_key : String) : Option ℚ :=
  (population_total counties).bind (fun total =>
    (population_by_ethnicity counties ethnicity_key).map (fun sub =>
      if total > 0 then sub / total * 100 else 0))

/-- `percent_below_poverty_level` from build_data.py. -/
def percent_below_poverty_level (counties : List CountyDemographics) :
    Option ℚ :=
  (population_total counties).bind (fun total =>
    (population_below_poverty_level counties).map (fun sub =>
      if total > 0 then sub / total * 100 else 0))

/-- `education_greater_than` from build_data.py:
`county.education.get(key, 0) > threshold`. -/
def education_greater_than (counties : List CountyDemographics)
    (education_key : String) (threshold : ℚ) : List CountyDemographics :=
  counties.filter (fun county =>
    decide (dictGetD county.education education_key 0 > threshold))

/-- `education_less_than` from build_data.py. -/
def education_less_than (counties : List CountyDemographics)
    (education_key : String) (threshold : ℚ) : List CountyDemographics :=
  counties.filter (fun county =>
    decide (dictGetD county.education education_key 0 < threshold))

/-- `ethnicity_greater_than` from build_data.py. -/
def ethnicity_greater_than (counties : List CountyDemographics)
    (ethnicity_key : String) (threshold : ℚ) : List CountyDemographics :=
  counties.filter (fun county =>
    decide (dictGetD county.ethnicity ethnicity_key 0 > threshold))

/-- `ethnicity_less_than` from build_data.py. -/
def ethnicity_less_than (counties : List CountyDemographics)
    (ethnicity_key : String) (threshold : ℚ) : List CountyDemographics :=
  counties.filter (fun county =>
    decide (dictGetD county.ethnicity ethnicity_key 0 < threshold))

/-- `below_poverty_level_greater_than` from build_data.py. -/
def below_poverty_level_greater_than (counties : List CountyDemographics)
    (threshold : ℚ) : List CountyDemographics :=
  counties.filter (fun county =>
    decide (dictGetD county.income povertyKey 0 > threshold))

/-- `below_poverty_level_less_than` from build_data.py. -/
def below_poverty_level_less_than (counties : List CountyDemographics)
    (threshold : ℚ) : List CountyDemographics :=
  counties.filter (fun county =>
    decide (dictGetD county.income povertyKey 0 < threshold))

/- Specification-side pure values used to state the claims. -/

/-- A county possesses the `"2014 Population"` key (the spec's well-formedness
invariant for the denominator). -/
def hasPop (c : CountyDemographics) : Bool :=
  (dictGet c.demographics pop2014).isSome

/-- The county's 2014 population (0 if the key is absent). -/
def popVal (c : CountyDemographics) : ℚ :=
  dictGetD c.demographics pop2014 0

/-- Spec-side total: the sum of `population["2014 Population"]`. -/
def sumPop (cs : List CountyDemographics) : ℚ :=
  (cs.map popVal).sum

/-- Spec-side per-county sub-population contribution: `(pct / 100) * pop`
when the relevant mapping contains the key, else 0. -/
def subContrib (get : CountyDemographics → Dict) (k : String)
    (c : CountyDemographics) : ℚ :=
  match dictGet (get c) k with
  | some pct => pct / 100 * popVal c
  | none => 0

/-- Spec-side education sub-population sum. -/
def eduSum (cs : List CountyDemographics) (k : String) : ℚ :=
  (cs.map (subContrib (fun c => c.education) k)).sum

/-- Spec-side ethnicity sub-population sum. -/
def ethSum (cs : List CountyDemographics) (k : String) : ℚ :=
  (cs.map (subContrib (fun c => c.ethnicity) k)).sum

/-- Spec-side poverty sub-population sum. -/
def povSum (cs : List CountyDemographics) : ℚ :=
  (cs.map (subContrib (fun c => c.income) povertyKey)).sum

/- Helper lemmas shared across the claims. -/

theorem dictGet_eq_popVal_of_hasPop (c : CountyDemographics)
    (h : hasPop c = true) : dictGet c.demographics pop2014 = some (popVal c) := by
  unfold hasPop at h
  unfold popVal dictGetD
  cases hd : dictGet c.demographics pop2014 with
  | none => rw [hd] at h; simp at h
  | some v => simp

theorem sumOptionWith_eq_sum (f : CountyDemographics → Option ℚ)
    (g : CountyDemographics → ℚ) (cs : List CountyDemographics)
    (h : ∀ c ∈ cs, f c = some (g c)) :
    sumOptionWith f cs = some ((cs.map g).sum) := by
  induction cs with
  | nil => rfl
  | cons c cs ih =>
      have hc := h c (List.mem_cons_self c cs)
      have hrest := ih (fun x hx => h x (List.mem_cons_of_mem c hx))
      simp [sumOptionWith, hc, hrest]

theorem subTerm_eq_subContrib (get : CountyDemographics → Dict) (k : String)
    (c : CountyDemographics)
    (h : dictContains (get c) k = true → hasPop c = true) :
    subTerm get k c = some (subContrib get k c) := by
  unfold subTerm subContrib
  cases hd : dictGet (get c) k with
  | none => rfl
  | some pct =>
      have hp : hasPop c = true := by
        apply h
        unfold dictContains
        rw [hd]
        rfl
      rw [dictGet_eq_popVal_of_hasPop c hp]
      rfl

theorem population_total_spec (cs : List CountyDemographics)
    (h : ∀ c ∈ cs, hasPop c = true) :
    population_total cs = some (sumPop cs) := by
  unfold population_total sumPop
  exact sumOptionWith_eq_sum _ popVal cs
    (fun c hc => dictGet_eq_popVal_of_hasPop c (h c hc))

theorem population_by_education_spec (cs : List CountyDemographics)
    (k : String)
    (h : ∀ c ∈ cs, dictContains c.education k = true → hasPop c = true) :
    population_by_education cs k = some (eduSum cs k) := by
  unfold population_by_education eduSum
  exact sumOptionWith_eq_sum _ _ cs
    (fun c hc => subTerm_eq_subContrib _ k c (h c hc))

theorem population_by_ethnicity_spec (cs : List CountyDemographics)
    (k : String)
    (h : ∀ c ∈ cs, dictContains c.ethnicity k = true → hasPop c = true) :
    population_by_ethnicity cs k = some (ethSum cs k) := by
  unfold population_by_ethnicity ethSum
  exact sumOptionWith_eq_sum _ _ cs
    (fun c hc => subTerm_eq_subContrib _ k c (h c hc))

theorem population_below_poverty_level_spec (cs : List CountyDemographics)
    (h : ∀ c ∈ cs, dictContains c.income povertyKey = true → hasPop c = true) :
    population_below_poverty_level cs = some (povSum cs) := by
  unfold population_below_poverty_level povSum
  exact sumOptionWith_eq_sum _ _ cs
    (fun c hc => subTerm_eq_subContrib _ povertyKey c (h c hc))

/- Concrete counties used by witnesses and counterexamples.  `countyA`
mirrors the Autauga County fixture of the repository's test file. -/

/-- Autauga County, AL, from the repository's test fixture. -/
def countyA : CountyDemographics :=
  { age := [("Percent 65 and Older", 138/10)]
    county := "Autauga County"
    education := [(bachelorsKey, 209/10), ("High School or Higher", 856/10)]
    ethnicity := [(hispanicKey, 27/10), ("Two or More Races", 18/10)]
    income := [("Per Capita Income", 24571), (povertyKey, 121/10)]
    demographics := [("2010 Population", 54571), (pop2014, 55395)]
    state := "AL" }

/-- A county whose education/ethnicity/income mappings are all empty. -/
def countyMissing : CountyDemographics :=
  { age := []
    county := "Missing County"
    education := []
    ethnicity := []
    income := []
    demographics := [(pop2014, 1000)]
    state := "TX" }

/-- A county with a negative 2014 population entry. -/
def countyNeg : CountyDemographics :=
  { age := []
    county := "Negative County"
    education := [("High School or Higher", 10)]
    ethnicity := []
    income := []
    demographics := [(pop2014, -1)]
    state := "CA" }

/-- C1: `population_total` applied to a sequence of counties (each carrying
the `"2014 Population"` key, the spec's invariant) returns the sum of
`population["2014 Population"]` over all counties, and returns 0 on the
empty sequence. -/
theorem population_total_eq_sum (cs : List CountyDemographics)
    (h : ∀ c ∈ cs, hasPop c = true) :
    population_total cs = some (sumPop cs) ∧
    population_total [] = some 0 :=
  ⟨population_total_spec cs h, rfl⟩

theorem population_total_eq_sum_witness :
    (∀ c ∈ [countyA, countyMissing], hasPop c = true) ∧
    population_total [countyA, countyMissing] = some 56395 := by
  have hh : ∀ c ∈ [countyA, countyMissing], hasPop c = true := by decide
  refine ⟨hh, ?_⟩
  have h := (population_total_eq_sum [countyA, countyMissing] hh).1
  rw [h]
  simp [sumPop, popVal, dictGetD, dictGet, countyA, countyMissing, pop2014]
  norm_num

/-- C2: each sub-population function returns the sum, over exactly those
counties whose relevant mapping contains the requested key, of
`(percentage_value / 100) * population["2014 Population"]`; a county missing
the key contributes 0 and causes no error.  The hypotheses are the spec's
invariant that a county contributing to the sum carries the
`"2014 Population"` denominator. -/
theorem sub_population_eq_sum (cs : List CountyDemographics) (k : String)
    (he : ∀ c ∈ cs, dictContains c.education k = true → hasPop c = true)
    (hn : ∀ c ∈ cs, dictContains c.ethnicity k = true → hasPop c = true)
    (hp : ∀ c ∈ cs, dictContains c.income povertyKey = true → hasPop c = true) :
    population_by_education cs k = some (eduSum cs k) ∧
    population_by_ethnicity cs k = some (ethSum cs k) ∧
    population_below_poverty_level cs = some (povSum cs) :=
  ⟨population_by_education_spec cs k he,
   population_by_ethnicity_spec cs k hn,
   population_below_poverty_level_spec cs hp⟩

theorem sub_population_eq_sum_witness :
    population_by_education [countyA, countyMissing] bachelorsKey
      = some (11577555/1000) ∧
    population_by_ethnicity [countyA, countyMissing] hispanicKey
      = some (14956650/10000) ∧
    population_below_poverty_level [countyA, countyMissing]
      = some (67027950/10000) := by
  have h := sub_population_eq_sum [countyA, countyMissing] bachelorsKey
    (by decide) (by decide) (by decide)
  obtain ⟨h1, h2, h3⟩ := h
  have h2b := (sub_population_eq_sum [countyA, countyMissing] hispanicKey
    (by decide) (by decide) (by decide)).2.1
  refine ⟨?_, ?_, ?_⟩
  · rw [h1]
    simp [eduSum, subContrib, popVal, dictGetD, dictGet, countyA, countyMissing,
      pop2014, bachelorsKey]
    norm_num
  · rw [h2b]
    simp [ethSum, subContrib, popVal, dictGetD, dictGet, countyA, countyMissing,
      pop2014, hispanicKey]
    norm_num
  · rw [h3]
    simp [povSum, subContrib, popVal, dictGetD, dictGet, countyA, countyMissing,
      pop2014, povertyKey]
    norm_num

/- C3: the percent functions.  The code returns the quotient only when the
total is strictly positive, not merely nonzero: with a negative total the
code returns 0.0 while the claimed formula is nonzero. -/

/-- C3 counterexample: on a single county with 2014 Population `-1` and
education value 10 for `"High School or Higher"`, the total is `-1`
(nonzero), the sub-population is `-1/10`, the claimed formula gives
`100 * (-1/10) / (-1) = 10`, but the code returns 0. -/
theorem percent_nonzero_total_counterexample :
    population_total [countyNeg] = some (-1) ∧
    ((-1 : ℚ) ≠ 0) ∧
    population_by_education [countyNeg] "High School or Higher"
      = some (-1/10) ∧
    percent_by_education [countyNeg] "High School or Higher" = some 0 ∧
    (100 * (-1/10) / (-1) : ℚ) = 10 ∧
    ((0 : ℚ) ≠ 10) := by
  refine ⟨?_, by norm_num, ?_, ?_, by norm_num, by norm_num⟩
  · simp [population_total, sumOptionWith, dictGet, countyNeg, pop2014]
  · simp [population_by_education, sumOptionWith, subTerm, dictGet, countyNeg,
      pop2014]
    norm_num
  · simp [percent_by_education, population_total, population_by_education,
      sumOptionWith, subTerm, dictGet, countyNeg, pop2014]

/-- C3 (amended): each percent function returns
`100 * sub_population(...) / total_population(counties)` when the total is
strictly positive, and returns 0.0 (raising no division error) whenever the
total is not positive — in particular when it is 0, which covers the empty
sequence and all-zero populations. -/
theorem percent_functions_saturating (cs : List CountyDemographics)
    (k : String) (h : ∀ c ∈ cs, hasPop c = true) :
    (0 < sumPop cs →
       percent_by_education cs k = some (100 * eduSum cs k / sumPop cs) ∧
       percent_by_ethnicity cs k = some (100 * ethSum cs k / sumPop cs) ∧
       percent_below_poverty_level cs = some (100 * povSum cs / sumPop cs)) ∧
    (¬ 0 < sumPop cs →
       percent_by_education cs k = some 0 ∧
       percent_by_ethnicity cs k = some 0 ∧
       percent_below_poverty_level cs = some 0) := by
  have ht : population_total cs = some (sumPop cs) := population_total_spec cs h
  have he : population_by_education cs k = some (eduSum cs k) :=
    population_by_education_spec cs k (fun c hc _ => h c hc)
  have hn : population_by_ethnicity cs k = some (ethSum cs k) :=
    population_by_ethnicity_spec cs k (fun c hc _ => h c hc)
  have hp : population_below_poverty_level cs = some (povSum cs) :=
    population_below_poverty_level_spec cs (fun c hc _ => h c hc)
  constructor
  · intro hpos
    refine ⟨?_, ?_, ?_⟩
    · unfold percent_by_education
      rw [ht, he]
      simp [hpos, gt_iff_lt]
      rw [div_mul_eq_mul_div, mul_comm]
    · unfold percent_by_ethnicity
      rw [ht, hn]
      simp [hpos, gt_iff_lt]
      rw [div_mul_eq_mul_div, mul_comm]
    · unfold percent_below_poverty_level
      rw [ht, hp]
      simp [hpos, gt_iff_lt]
      rw [div_mul_eq_mul_div, mul_comm]
  · intro hneg
    refine ⟨?_, ?_, ?_⟩
    · unfold percent_by_education
      rw [ht, he]
      simp [hneg, gt_iff_lt]
    · unfold percent_by_ethnicity
      rw [ht, hn]
      simp [hneg, gt_iff_lt]
    · unfold percent_below_poverty_level
      rw [ht, hp]
      simp [hneg, gt_iff_lt]

theorem percent_functions_saturating_witness :
    percent_by_education [countyA] bachelorsKey = some (209/10) ∧
    percent_by_education [] bachelorsKey = some 0 := by
  constructor
  · have h := ((percent_functions_saturating [countyA] bachelorsKey
      (by decide)).1 (by
        simp [sumPop, popVal, dictGetD, dictGet, countyA, pop2014])).1
    rw [h]
    simp [eduSum, sumPop, subContrib, popVal, dictGetD, dictGet, countyA,
      pop2014, bachelorsKey]
    norm_num
  · have h := ((percent_functions_saturating [] bachelorsKey
      (by simp)).2 (by simp [sumPop])).1
    rw [h]

theorem dictGetD_of_not_contains (d : Dict) (k : String)
    (h : dictContains d k = false) : dictGetD d k 0 = 0 := by
  unfold dictContains at h
  unfold dictGetD
  cases hd : dictGet d k with
  | none => rfl
  | some v => rw [hd] at h; simp at h

theorem mem_filter_decide (p : CountyDemographics → Prop) [DecidablePred p]
    (cs : List CountyDemographics) (c : CountyDemographics) :
    c ∈ cs.filter (fun x => decide (p x)) ↔ c ∈ cs ∧ p c := by
  simp [List.mem_filter]

/-- C4: every threshold filter selects exactly the counties whose named
attribute value (0 when the key is absent) is strictly greater than
(respectively strictly less than) the threshold; in particular a county
lacking an `"Hispanic or Latino"` ethnicity entry appears in
`ethnicity_less_than cs hispanicKey 1` and never in
`ethnicity_greater_than cs hispanicKey 1`. -/
theorem threshold_filters_membership (cs : List CountyDemographics)
    (k : String) (t : ℚ) :
    (∀ c, c ∈ education_greater_than cs k t ↔
        c ∈ cs ∧ dictGetD c.education k 0 > t) ∧
    (∀ c, c ∈ education_less_than cs k t ↔
        c ∈ cs ∧ dictGetD c.education k 0 < t) ∧
    (∀ c, c ∈ ethnicity_greater_than cs k t ↔
        c ∈ cs ∧ dictGetD c.ethnicity k 0 > t) ∧
    (∀ c, c ∈ ethnicity_less_than cs k t ↔
        c ∈ cs ∧ dictGetD c.ethnicity k 0 < t) ∧
    (∀ c, c ∈ below_poverty_level_greater_than cs t ↔
        c ∈ cs ∧ dictGetD c.income povertyKey 0 > t) ∧
    (∀ c, c ∈ below_poverty_level_less_than cs t ↔
        c ∈ cs ∧ dictGetD c.income povertyKey 0 < t) ∧
    (∀ c ∈ cs, dictContains c.ethnicity hispanicKey = false →
        c ∈ ethnicity_less_than cs hispanicKey 1 ∧
        c ∉ ethnicity_greater_than cs hispanicKey 1) := by
  refine ⟨?_, ?_, ?_, ?_, ?_, ?_, ?_⟩
  · exact fun c => mem_filter_decide _ cs c
  · exact fun c => mem_filter_decide _ cs c
  · exact fun c => mem_filter_decide _ cs c
  · exact fun c => mem_filter_decide _ cs c
  · exact fun c => mem_filter_decide _ cs c
  · exact fun c => mem_filter_decide _ cs c
  · intro c hc hmiss
    have h0 : dictGetD c.ethnicity hispanicKey 0 = 0 :=
      dictGetD_of_not_contains _ _ hmiss
    constructor
    · exact (mem_filter_decide _ cs c).mpr ⟨hc, by rw [h0]; norm_num⟩
    · intro habs
      have := ((mem_filter_decide _ cs c).mp habs).2
      rw [h0] at this
      exact absurd this (by norm_num)

theorem threshold_filters_membership_witness :
    countyMissing ∈ ethnicity_less_than [countyA, countyMissing] hispanicKey 1 ∧
    countyMissing ∉ ethnicity_greater_than [countyA, countyMissing] hispanicKey 1 :=
  (threshold_filters_membership [countyA, countyMissing] hispanicKey 1).2.2.2.2.2.2
    countyMissing (List.mem_cons_of_mem countyA (List.mem_cons_self countyMissing []))
    rfl

/-- C5: `filter_by_state` returns exactly the order-preserving subsequence of
counties whose `state` equals `state_abbr` (case-sensitively): every element
of the result has that state, every excluded element does not, and the
result is empty whenever nothing matches. -/
theorem filter_by_state_membership (cs : List CountyDemographics) (s : String) :
    (∀ c, c ∈ filter_by_state cs s ↔ c ∈ cs ∧ c.state = s) ∧
    List.Sublist (filter_by_state cs s) cs ∧
    ((∀ c ∈ cs, c.state ≠ s) → filter_by_state cs s = []) := by
  refine ⟨?_, ?_, ?_⟩
  · intro c
    simp [filter_by_state, List.mem_filter]
  · exact List.filter_sublist cs
  · intro h
    unfold filter_by_state
    rw [List.filter_eq_nil_iff]
    intro c hc
    simpa using h c hc

theorem filter_by_state_membership_witness :
    countyA ∈ filter_by_state [countyA, countyMissing] "AL" ∧
    countyMissing ∉ filter_by_state [countyA, countyMissing] "AL" ∧
    filter_by_state [countyA, countyMissing] "ZZ" = [] := by
  refine ⟨?_, ?_, ?_⟩
  · exact ((filter_by_state_membership [countyA, countyMissing] "AL").1
      countyA).mpr ⟨List.mem_cons_self countyA [countyMissing], rfl⟩
  · intro habs
    have h := ((filter_by_state_membership [countyA, countyMissing] "AL").1
      countyMissing).mp habs
    exact absurd h.2 (by simp [countyMissing])
  · refine (filter_by_state_membership [countyA, countyMissing] "ZZ").2.2 ?_
    intro c hc
    rcases List.mem_cons.mp hc with h | h
    · rw [h]; simp [countyA]
    · rw [List.mem_singleton.mp h]; simp [countyMissing]

/-- Spec-side: the counties of `cs` whose education value for `k` (0 when
the key is absent) equals exactly `t` — the boundary part of the partition
described by the spec. -/
def eduEqualCounties (cs : List CountyDemographics) (k : String) (t : ℚ) :
    List CountyDemographics :=
  cs.filter (fun c => decide (dictGetD c.education k 0 = t))

/-- C6: `education_greater_than cs k t` and `education_less_than cs k t` are
disjoint, every county of `cs` lies in exactly one of the two filters and
the boundary part `eduEqualCounties cs k t`, and the three parts together
reconstruct `cs` up to permutation. -/
theorem education_filters_partition (cs : List CountyDemographics)
    (k : String) (t : ℚ) :
    (∀ c, ¬(c ∈ education_greater_than cs k t ∧
            c ∈ education_less_than cs k t)) ∧
    (∀ c ∈ cs,
       (c ∈ education_greater_than cs k t ∧
        c ∉ education_less_than cs k t ∧ c ∉ eduEqualCounties cs k t) ∨
       (c ∉ education_greater_than cs k t ∧
        c ∈ education_less_than cs k t ∧ c ∉ eduEqualCounties cs k t) ∨
       (c ∉ education_greater_than cs k t ∧
        c ∉ education_less_than cs k t ∧ c ∈ eduEqualCounties cs k t)) ∧
    (education_greater_than cs k t ++
      (education_less_than cs k t ++ eduEqualCounties cs k t)).Perm cs := by
  have hgt : ∀ c, c ∈ education_greater_than cs k t ↔
      c ∈ cs ∧ t < dictGetD c.education k 0 :=
    fun c => mem_filter_decide _ cs c
  have hlt : ∀ c, c ∈ education_less_than cs k t ↔
      c ∈ cs ∧ dictGetD c.education k 0 < t :=
    fun c => mem_filter_decide _ cs c
  have heq : ∀ c, c ∈ eduEqualCounties cs k t ↔
      c ∈ cs ∧ dictGetD c.education k 0 = t :=
    fun c => mem_filter_decide _ cs c
  refine ⟨?_, ?_, ?_⟩
  · intro c ⟨h1, h2⟩
    exact absurd ((hgt c).mp h1).2 (lt_asymm ((hlt c).mp h2).2)
  · intro c hc
    rcases lt_trichotomy (dictGetD c.education k 0) t with h | h | h
    · refine Or.inr (Or.inl ⟨?_, (hlt c).mpr ⟨hc, h⟩, ?_⟩)
      · intro habs; exact absurd ((hgt c).mp habs).2 (lt_asymm h)
      · intro habs; exact absurd ((heq c).mp habs).2 (ne_of_lt h)
    · refine Or.inr (Or.inr ⟨?_, ?_, (heq c).mpr ⟨hc, h⟩⟩)
      · intro habs; exact absurd ((hgt c).mp habs).2 (by rw [h] at *; exact lt_irrefl t)
      · intro habs; exact absurd ((hlt c).mp habs).2 (by rw [h] at *; exact lt_irrefl t)
    · refine Or.inl ⟨(hgt c).mpr ⟨hc, h⟩, ?_, ?_⟩
      · intro habs; exact absurd ((hlt c).mp habs).2 (lt_asymm h)
      · intro habs; exact absurd ((heq c).mp habs).2 (ne_of_gt h)
  · have h1 := List.filter_append_perm
      (fun c => decide (dictGetD c.education k 0 > t)) cs
    have h2 := List.filter_append_perm
      (fun c => decide (dictGetD c.education k 0 < t))
      (cs.filter (fun c => !decide (dictGetD c.education k 0 > t)))
    rw [List.filter_filter, List.filter_filter] at h2
    have e1 : cs.filter (fun a => decide (dictGetD a.education k 0 < t) &&
        !decide (dictGetD a.education k 0 > t)) =
        cs.filter (fun a => decide (dictGetD a.education k 0 < t)) := by
      apply List.filter_congr
      intro a _
      by_cases hv : dictGetD a.education k 0 < t
      · simp [hv, gt_iff_lt, lt_asymm hv]
      · simp [hv]
    have e2 : cs.filter (fun a => !decide (dictGetD a.education k 0 < t) &&
        !decide (dictGetD a.education k 0 > t)) =
        cs.filter (fun a => decide (dictGetD a.education k 0 = t)) := by
      apply List.filter_congr
      intro a _
      rcases lt_trichotomy (dictGetD a.education k 0) t with h | h | h
      · simp [h, ne_of_lt h]
      · simp [h, gt_iff_lt, lt_irrefl]
      · simp [h, gt_iff_lt, lt_asymm h, ne_of_gt h]
    rw [e1, e2] at h2
    exact (List.Perm.append_left (education_greater_than cs k t) h2).trans h1

theorem education_filters_partition_witness :
    countyA ∈ education_greater_than [countyA, countyMissing] bachelorsKey 20 ∧
    countyA ∉ education_less_than [countyA, countyMissing] bachelorsKey 20 ∧
    countyA ∉ eduEqualCounties [countyA, countyMissing] bachelorsKey 20 ∧
    countyMissing ∉ education_greater_than [countyA, countyMissing] bachelorsKey 20 ∧
    countyMissing ∈ education_less_than [countyA, countyMissing] bachelorsKey 20 := by
  have h := (education_filters_partition [countyA, countyMissing]
    bachelorsKey 20).2.1
  have hA := h countyA (List.mem_cons_self countyA [countyMissing])
  have hM := h countyMissing
    (List.mem_cons_of_mem countyA (List.mem_cons_self countyMissing []))
  have hvA : dictGetD countyA.education bachelorsKey 0 = 209/10 := by
    simp [dictGetD, dictGet, countyA]
  have hvM : dictGetD countyMissing.education bachelorsKey 0 = 0 := by
    simp [dictGetD, dictGet, countyMissing]
  rcases hA with ⟨a1, a2, a3⟩ | ⟨a1, a2, a3⟩ | ⟨a1, a2, a3⟩
  · rcases hM with ⟨m1, m2, m3⟩ | ⟨m1, m2, m3⟩ | ⟨m1, m2, m3⟩
    · exact absurd ((mem_filter_decide _ _ _).mp m1).2 (by rw [hvM]; norm_num)
    · exact ⟨a1, a2, a3, m1, m2⟩
    · exact absurd ((mem_filter_decide _ _ _).mp m3).2 (by rw [hvM]; norm_num)
  · exact absurd ((mem_filter_decide _ _ _).mp a2).2 (by rw [hvA]; norm_num)
  · exact absurd ((mem_filter_decide _ _ _).mp a3).2 (by rw [hvA]; norm_num)

theorem sumPop_filter_le (p : CountyDemographics → Bool)
    (cs : List CountyDemographics) (h : ∀ c ∈ cs, 0 ≤ popVal c) :
    sumPop (cs.filter p) ≤ sumPop cs := by
  induction cs with
  | nil => simp [sumPop]
  | cons c cs ih =>
      have hc := h c (List.mem_cons_self c cs)
      have ih2 := ih (fun x hx => h x (List.mem_cons_of_mem c hx))
      by_cases hp : p c = true
      · simp only [sumPop, List.filter_cons, hp, if_true, List.map_cons,
          List.sum_cons] at *
        exact add_le_add_left ih2 _
      · simp only [sumPop, List.filter_cons, hp, if_false, List.map_cons,
          List.sum_cons] at *
        exact le_add_of_nonneg_of_le hc ih2

/- C7: monotonicity of the total under the state filter.  The claim fails
when a county carries a negative 2014 Population entry: filtering it away
makes the total grow. -/

/-- C7 counterexample: for the single county with 2014 Population `-1` and
state `"CA"`, filtering by `"TX"` yields total 0, but the unfiltered total
is `-1`, and 0 ≤ -1 fails. -/
theorem filtered_population_le_counterexample :
    population_total (filter_by_state [countyNeg] "TX") = some 0 ∧
    population_total [countyNeg] = some (-1) ∧
    ¬ ((0 : ℚ) ≤ -1) := by
  refine ⟨?_, ?_, by norm_num⟩
  · simp [filter_by_state, countyNeg, population_total, sumOptionWith]
  · simp [population_total, sumOptionWith, dictGet, countyNeg, pop2014]

/-- C7 (amended): for every sequence `cs` whose counties all carry the
`"2014 Population"` key with a nonnegative value, and every state code `s`,
`population_total (filter_by_state cs s)` is at most `population_total cs`. -/
theorem filtered_population_le_total (cs : List CountyDemographics)
    (s : String) (h1 : ∀ c ∈ cs, hasPop c = true)
    (h2 : ∀ c ∈ cs, 0 ≤ popVal c) :
    population_total (filter_by_state cs s)
      = some (sumPop (filter_by_state cs s)) ∧
    population_total cs = some (sumPop cs) ∧
    sumPop (filter_by_state cs s) ≤ sumPop cs := by
  have hsub : ∀ c ∈ filter_by_state cs s, hasPop c = true :=
    fun c hc => h1 c (List.mem_of_mem_filter hc)
  exact ⟨population_total_spec _ hsub, population_total_spec cs h1,
    sumPop_filter_le _ cs h2⟩

theorem filtered_population_le_total_witness :
    sumPop (filter_by_state [countyA, countyMissing] "AL")
      ≤ sumPop [countyA, countyMissing] := by
  have h2 : ∀ c ∈ [countyA, countyMissing], 0 ≤ popVal c := by
    intro c hc
    rcases List.mem_cons.mp hc with h | h
    · rw [h]; simp [popVal, dictGetD, dictGet, countyA, pop2014]
    · rw [List.mem_singleton.mp h]
      simp [popVal, dictGetD, dictGet, countyMissing, pop2014]
  exact (filtered_population_le_total [countyA, countyMissing] "AL"
    (by decide) h2).2.2

/-- C8: for the single-county list `[countyA]` (2014 Population 55395,
education value 20.9 for the bachelors key), `population_by_education`
returns exactly `(20.9 / 100) * 55395 = 11577.555`, and
`percent_by_education` on the same list returns exactly `20.9`. -/
theorem autauga_education_scenario :
    population_by_education [countyA] bachelorsKey
      = some ((209/10) / 100 * 55395) ∧
    ((209/10 : ℚ) / 100 * 55395 = 11577555/1000) ∧
    percent_by_education [countyA] bachelorsKey = some (209/10) := by
  refine ⟨?_, by norm_num, ?_⟩
  · simp [population_by_education, sumOptionWith, subTerm, dictGet, countyA,
      pop2014, bachelorsKey]
  · simp [percent_by_education, population_total, population_by_education,
      sumOptionWith, subTerm, dictGet, countyA, pop2014, bachelorsKey]

/-- C9: a county of `cs` whose relevant mapping lacks the key appears in
neither the greater-than nor the less-than filter at threshold 0, and for
every strictly negative threshold it appears in the greater-than filter
(the missing-key default 0 satisfies `0 > t`) — for the education,
ethnicity and poverty filter families alike. -/
theorem missing_key_threshold_filters (cs : List CountyDemographics)
    (k : String) (t : ℚ) (c : CountyDemographics) (hc : c ∈ cs) :
    (dictContains c.education k = false →
        c ∉ education_greater_than cs k 0 ∧
        c ∉ education_less_than cs k 0 ∧
        (t < 0 → c ∈ education_greater_than cs k t)) ∧
    (dictContains c.ethnicity k = false →
        c ∉ ethnicity_greater_than cs k 0 ∧
        c ∉ ethnicity_less_than cs k 0 ∧
        (t < 0 → c ∈ ethnicity_greater_than cs k t)) ∧
    (dictContains c.income povertyKey = false →
        c ∉ below_poverty_level_greater_than cs 0 ∧
        c ∉ below_poverty_level_less_than cs 0 ∧
        (t < 0 → c ∈ below_poverty_level_greater_than cs t)) := by
  refine ⟨?_, ?_, ?_⟩
  · intro hmiss
    have h0 := dictGetD_of_not_contains _ _ hmiss
    refine ⟨?_, ?_, ?_⟩
    · intro habs
      exact absurd ((mem_filter_decide _ _ _).mp habs).2
        (by rw [h0]; exact lt_irrefl 0)
    · intro habs
      exact absurd ((mem_filter_decide _ _ _).mp habs).2
        (by rw [h0]; exact lt_irrefl 0)
    · intro ht
      exact (mem_filter_decide _ _ _).mpr ⟨hc, by rw [h0]; exact ht⟩
  · intro hmiss
    have h0 := dictGetD_of_not_contains _ _ hmiss
    refine ⟨?_, ?_, ?_⟩
    · intro habs
      exact absurd ((mem_filter_decide _ _ _).mp habs).2
        (by rw [h0]; exact lt_irrefl 0)
    · intro habs
      exact absurd ((mem_filter_decide _ _ _).mp habs).2
        (by rw [h0]; exact lt_irrefl 0)
    · intro ht
      exact (mem_filter_decide _ _ _).mpr ⟨hc, by rw [h0]; exact ht⟩
  · intro hmiss
    have h0 := dictGetD_of_not_contains _ _ hmiss
    refine ⟨?_, ?_, ?_⟩
    · intro habs
      exact absurd ((mem_filter_decide _ _ _).mp habs).2
        (by rw [h0]; exact lt_irrefl 0)
    · intro habs
      exact absurd ((mem_filter_decide _ _ _).mp habs).2
        (by rw [h0]; exact lt_irrefl 0)
    · intro ht
      exact (mem_filter_decide _ _ _).mpr ⟨hc, by rw [h0]; exact ht⟩

theorem missing_key_threshold_filters_witness :
    countyMissing ∉ education_greater_than [countyMissing] bachelorsKey 0 ∧
    countyMissing ∉ education_less_than [countyMissing] bachelorsKey 0 ∧
    countyMissing ∈ education_greater_than [countyMissing] bachelorsKey (-1) := by
  have h := (missing_key_threshold_filters [countyMissing] bachelorsKey (-1)
    countyMissing (List.mem_cons_self countyMissing [])).1 rfl
  exact ⟨h.1, h.2.1, h.2.2 (by norm_num)⟩

theorem sumOptionWith_append (f : CountyDemographics → Option ℚ)
    (cs ds : List CountyDemographics) (a b : ℚ)
    (h1 : sumOptionWith f cs = some a) (h2 : sumOptionWith f ds = some b) :
    sumOptionWith f (cs ++ ds) = some (a + b) := by
  induction cs generalizing a with
  | nil =>
      have ha : (0 : ℚ) = a := by simpa [sumOptionWith] using h1
      rw [← ha, List.nil_append, h2, zero_add]
  | cons c cs ih =>
      rw [List.cons_append]
      unfold sumOptionWith at h1 ⊢
      cases hf : f c with
      | none => simp [hf] at h1
      | some v =>
          cases hs : sumOptionWith f cs with
          | none => simp [hf, hs] at h1
          | some r =>
              simp [hf, hs] at h1 ⊢
              rw [ih r hs]
              simp
              linarith [h1]

/-- C10: `population_total` and the three sub-population functions are
additive over list concatenation: whenever both halves evaluate, the
concatenation evaluates to the sum of the two values. -/
theorem sub_population_additive_append (cs ds : List CountyDemographics)
    (k : String) (t1 t2 e1 e2 n1 n2 p1 p2 : ℚ)
    (h1 : population_total cs = some t1)
    (h2 : population_total ds = some t2)
    (h3 : population_by_education cs k = some e1)
    (h4 : population_by_education ds k = some e2)
    (h5 : population_by_ethnicity cs k = some n1)
    (h6 : population_by_ethnicity ds k = some n2)
    (h7 : population_below_poverty_level cs = some p1)
    (h8 : population_below_poverty_level ds = some p2) :
    population_total (cs ++ ds) = some (t1 + t2) ∧
    population_by_education (cs ++ ds) k = some (e1 + e2) ∧
    population_by_ethnicity (cs ++ ds) k = some (n1 + n2) ∧
    population_below_poverty_level (cs ++ ds) = some (p1 + p2) :=
  ⟨sumOptionWith_append _ cs ds t1 t2 h1 h2,
   sumOptionWith_append _ cs ds e1 e2 h3 h4,
   sumOptionWith_append _ cs ds n1 n2 h5 h6,
   sumOptionWith_append _ cs ds p1 p2 h7 h8⟩

theorem sub_population_additive_append_witness :
    population_total ([countyA] ++ [countyMissing]) = some 56395 ∧
    population_by_education ([countyA] ++ [countyMissing]) bachelorsKey
      = some (11577555/1000) := by
  have h1 : population_total [countyA] = some 55395 := by
    simp [population_total, sumOptionWith, dictGet, countyA, pop2014]
  have h2 : population_total [countyMissing] = some 1000 := by
    simp [population_total, sumOptionWith, dictGet, countyMissing, pop2014]
  have h3 : population_by_education [countyA] bachelorsKey
      = some (11577555/1000) := by
    simp [population_by_education, sumOptionWith, subTerm, dictGet, countyA,
      pop2014, bachelorsKey]
    norm_num
  have h4 : population_by_education [countyMissing] bachelorsKey = some 0 := by
    simp [population_by_education, sumOptionWith, subTerm, dictGet,
      countyMissing, pop2014, bachelorsKey]
  have h5 : population_by_ethnicity [countyA] bachelorsKey = some 0 := by
    simp [population_by_ethnicity, sumOptionWith, subTerm, dictGet, countyA,
      pop2014, bachelorsKey, hispanicKey]
  have h6 : population_by_ethnicity [countyMissing] bachelorsKey = some 0 := by
    simp [population_by_ethnicity, sumOptionWith, subTerm, dictGet,
      countyMissing, pop2014, bachelorsKey]
  have h7 : population_below_poverty_level [countyA]
      = some (6702795/1000) := by
    simp [population_below_poverty_level, sumOptionWith, subTerm, dictGet,
      countyA, pop2014, povertyKey]
    norm_num
  have h8 : population_below_poverty_level [countyMissing] = some 0 := by
    simp [population_below_poverty_level, sumOptionWith, subTerm, dictGet,
      countyMissing, pop2014, povertyKey]
  obtain ⟨w1, w2, _, _⟩ := sub_population_additive_append [countyA]
    [countyMissing] bachelorsKey 55395 1000 (11577555/1000) 0 0 0
    (6702795/1000) 0 h1 h2 h3 h4 h5 h6 h7 h8
  constructor
  · rw [w1]; norm_num
  · rw [w2]; norm_num

end BuildData
